import Mathlib

/-!
Shallow embedding of src/glc/capture/audio_hook.c, the glc audio capture
hook.  Pure functions of the source become Lean functions; the mutable
hook and stream structs become explicit state records threaded through
each entry point.  Side effects visible to the verified properties
(locking, logging, semaphore posts, packet emission) are recorded as an
event trace.  Blocking waits (sem_wait and the sched_yield busy loop)
are modelled as eventually succeeding, which is the only way the
sequential call returns in the source.  Allocation success of malloc
and realloc is an explicit oracle argument.  Memory and byte buffers
are modelled as total maps from byte addresses to byte values.
Constants and helpers declared in external headers that are not part of
src (glc.h flag bits, the ALSA byte-size helpers, the glc_state audio
id registry) are modelled from the spec where noted.
-/

namespace AudioHook

-- Linux errno values used by audio_hook.c.
def EINVAL : Nat := 22
def ENOMEM : Nat := 12
def EBUSY : Nat := 16
def EAGAIN : Nat := 11
def ENOTSUP : Nat := 95
def EALREADY : Nat := 114

-- ALSA mode bits (asoundlib): SND_PCM_NONBLOCK and SND_PCM_ASYNC.
def SND_PCM_NONBLOCK : Nat := 1
def SND_PCM_ASYNC : Nat := 2

-- ALSA access enumeration values (asoundlib).
def SND_PCM_ACCESS_MMAP_INTERLEAVED : Nat := 0
def SND_PCM_ACCESS_MMAP_NONINTERLEAVED : Nat := 1
def SND_PCM_ACCESS_MMAP_COMPLEX : Nat := 2
def SND_PCM_ACCESS_RW_INTERLEAVED : Nat := 3
def SND_PCM_ACCESS_RW_NONINTERLEAVED : Nat := 4

-- ALSA sample format enumeration values (asoundlib).
def SND_PCM_FORMAT_S16_LE : Nat := 2
def SND_PCM_FORMAT_S24_LE : Nat := 6
def SND_PCM_FORMAT_S32_LE : Nat := 10

/-- Modelled from the spec: glc.h audio flag constants (the header is not
under src).  Section 4.3 of the spec names four format flags and the
INTERLEAVED flag; they are modelled as distinct bits of the flag word. -/
def GLC_AUDIO_FORMAT_UNKNOWN : Nat := 1

/-- Modelled from the spec: glc.h flag for signed 16-bit little-endian. -/
def GLC_AUDIO_S16_LE : Nat := 2

/-- Modelled from the spec: glc.h flag for signed 24-bit little-endian. -/
def GLC_AUDIO_S24_LE : Nat := 4

/-- Modelled from the spec: glc.h flag for signed 32-bit little-endian. -/
def GLC_AUDIO_S32_LE : Nat := 8

/-- Modelled from the spec: glc.h flag for interleaved sample layout. -/
def GLC_AUDIO_INTERLEAVED : Nat := 16

/-- Modelled from the spec: the ALSA host contract snd_pcm_samples_to_bytes,
samples times the negotiated sample width in bytes (spec section 6). -/
def snd_pcm_samples_to_bytes (sampleBytes samples : Nat) : Nat :=
  samples * sampleBytes

/-- Modelled from the spec: the ALSA host contract snd_pcm_frames_to_bytes;
one frame is one sample per channel, so frame bytes equal
sample_bytes * channels (spec sections 4.8 and 6). -/
def snd_pcm_frames_to_bytes (channels sampleBytes frames : Nat) : Nat :=
  frames * channels * sampleBytes

/-- ALSA channel area descriptor snd_pcm_channel_area_t: base address,
first bit offset and step in bits.  Addresses are modelled as Nat. -/
structure snd_pcm_channel_area_t where
  addr : Nat
  first : Nat
  step : Nat
deriving Repr, DecidableEq

/-- Translation of audio_hook_alsa_mmap_pos: address of the sample at the
given frame offset inside a channel area (sub-byte first and step are
truncated by the source, see its todo comment). -/
def audio_hook_alsa_mmap_pos (area : snd_pcm_channel_area_t) (offset : Nat) : Nat :=
  area.addr + area.first / 8 + offset * (area.step / 8)

/-- Byte-level memcpy on buffer maps: copy n bytes read from src starting
at srcOff into dst starting at dstOff. -/
def memcpyAt (dst : Nat → Nat) (dstOff : Nat) (src : Nat → Nat) (srcOff n : Nat) :
    Nat → Nat :=
  fun i => if dstOff ≤ i ∧ i < dstOff + n then src (srcOff + (i - dstOff)) else dst i

/-- Translation of audio_hook_complex_to_interleaved.  The source sets
add = snd_pcm_frames_to_bytes(pcm, 1) and ssize =
snd_pcm_samples_to_bytes(pcm, 1), then for channel c starts at
off = add * c and advances off by add per sample, copying ssize bytes
from audio_hook_alsa_mmap_pos(areas[c], offset + s) each step.
mem is the process memory, to is the destination buffer. -/
def audio_hook_complex_to_interleaved (channels sampleBytes : Nat)
    (areas : List snd_pcm_channel_area_t) (offset frames : Nat)
    (mem : Nat → Nat) (dst : Nat → Nat) : Nat → Nat :=
  let add := snd_pcm_frames_to_bytes channels sampleBytes 1
  let ssize := snd_pcm_samples_to_bytes sampleBytes 1
  (List.range channels).foldl (fun buf c =>
    (List.range frames).foldl (fun buf2 s =>
      memcpyAt buf2 (add * c + s * add) mem
        (audio_hook_alsa_mmap_pos (areas.getD c ⟨0, 0, 0⟩) (offset + s)) ssize) buf) dst

/-- Follows the spec's words (section 4.8), for comparison with the source
translation above: channel c sample s lands at destination offset
s * frame_bytes + c * sample_bytes. -/
def spec_complex_to_interleaved (channels sampleBytes : Nat)
    (areas : List snd_pcm_channel_area_t) (offset frames : Nat)
    (mem : Nat → Nat) (dst : Nat → Nat) : Nat → Nat :=
  let frameBytes := snd_pcm_frames_to_bytes channels sampleBytes 1
  let ssize := snd_pcm_samples_to_bytes sampleBytes 1
  (List.range channels).foldl (fun buf c =>
    (List.range frames).foldl (fun buf2 s =>
      memcpyAt buf2 (s * frameBytes + c * ssize) mem
        (audio_hook_alsa_mmap_pos (areas.getD c ⟨0, 0, 0⟩) (offset + s)) ssize) buf) dst

/-- Claim C1: the complex MMap converter is claimed to write, for every
c < channels and s < frames, the sample_bytes bytes at
area_addr(areas[c], offset + s) to destination offset
s * frame_bytes + c * sample_bytes.  The source instead starts channel c
at frame_bytes * c and steps by frame_bytes, so with two S16_LE channels
(sample_bytes = 2, frame_bytes = 4), two frames, offset 0, areas at
addresses 0 and 100 with step 16 bits, and memory mem(i) = i over an
all-999 destination: destination byte 2 (the claimed home of channel 1
sample 0, value mem(100) = 100 under the spec layout) is left untouched
at 999, while the source writes byte 8, one past the 8-byte payload
frames_to_bytes(2) = 8, evaluating to mem(102) = 102. -/
theorem C1_converter_misplaces_samples :
    (audio_hook_complex_to_interleaved 2 2 [⟨0, 0, 16⟩, ⟨100, 0, 16⟩] 0 2
      (fun i => i) (fun _ => 999)) 2 = 999
    ∧ (spec_complex_to_interleaved 2 2 [⟨0, 0, 16⟩, ⟨100, 0, 16⟩] 0 2
      (fun i => i) (fun _ => 999)) 2 = 100
    ∧ (audio_hook_complex_to_interleaved 2 2 [⟨0, 0, 16⟩, ⟨100, 0, 16⟩] 0 2
      (fun i => i) (fun _ => 999)) 8 = 102
    ∧ snd_pcm_frames_to_bytes 2 2 2 = 8 := by
  refine ⟨rfl, rfl, rfl, rfl⟩

/-- Events recorded by the entry points: write-lock operations, log lines
by level, the sem_post on capture_full that hands the scratch buffer to
the worker, the sem_wait on capture_finished during worker teardown, and
the one-shot AUDIO_FORMAT packet written by stream initialization. -/
inductive Event where
  | lock : Event
  | unlock : Event
  | postFull : Event
  | waitFinished : Event
  | logError : Event
  | logWarning : Event
  | logInfo : Event
  | logDebug : Event
  | emitFormat : Nat → Nat → Nat → Nat → Event
deriving Repr, DecidableEq

/-- Translation of struct audio_hook_stream_s.  Pointers become plain
data: pcm is the opaque handle key, mmap_areas is the recorded channel
area list (none models the NULL pointer), capture_data is whether the
scratch pointer is non-NULL, capture_buf holds the scratch bytes, and
the semaphores and the worker thread handle are represented by the
capture_running and capture_ready flags the entry points read. -/
structure audio_hook_stream_s where
  pcm : Nat
  mode : Nat
  mmap_areas : Option (List snd_pcm_channel_area_t)
  frames : Nat
  offset : Nat
  channels : Nat
  rate : Nat
  flags : Nat
  complex : Bool
  fmt : Bool
  initialized : Bool
  audio_i : Nat
  capture_running : Bool
  capture_ready : Bool
  capture_data : Bool
  capture_buf : Nat → Nat
  capture_size : Nat
  capture_data_size : Nat
  capture_time : Nat

/-- Translation of struct audio_hook_s.  The two-bit flag word
(AUDIO_HOOK_CAPTURING, AUDIO_HOOK_ALLOW_SKIP) is modelled as two Bools;
to_buffer models the field named to, the downstream transport
handle (none models NULL).
next_audio_id is modelled from the spec: the glc_state audio registry
(not under src) assigns monotonically increasing ids issued from 1. -/
structure audio_hook_s where
  capturing : Bool
  allow_skip : Bool
  to_buffer : Option Nat
  started : Bool
  streams : List audio_hook_stream_s
  next_audio_id : Nat

/-- Result of one entry point call: the returned errno value, the hook
state after the call, and the trace of recorded events. -/
structure HookResult where
  ret : Nat
  hook : audio_hook_s
  events : List Event

/-- Zeroed stream as produced by malloc plus memset in
audio_hook_get_stream_alsa, with the pcm key filled in. -/
def newStream (pcm : Nat) : audio_hook_stream_s :=
  { pcm := pcm, mode := 0, mmap_areas := none, frames := 0, offset := 0,
    channels := 0, rate := 0, flags := 0, complex := false, fmt := false,
    initialized := false, audio_i := 0, capture_running := false,
    capture_ready := false, capture_data := false, capture_buf := fun _ => 0,
    capture_size := 0, capture_data_size := 0, capture_time := 0 }

/-- Linear search of the stream list by pcm handle identity, the loop at
the top of audio_hook_get_stream_alsa. -/
def findStream (h : audio_hook_s) (pcm : Nat) : Option audio_hook_stream_s :=
  h.streams.find? (fun s => s.pcm == pcm)

/-- Write the located stream back into the hook: the model of mutating
the stream struct through the pointer the registry returned. -/
def updateStream (h : audio_hook_s) (pcm : Nat)
    (f : audio_hook_stream_s → audio_hook_stream_s) : audio_hook_s :=
  { h with streams := h.streams.map (fun s => if s.pcm == pcm then f s else s) }

/-- Translation of audio_hook_get_stream_alsa: find the stream for the
pcm handle, or allocate a zeroed one and link it at the head. -/
def audio_hook_get_stream_alsa (h : audio_hook_s) (pcm : Nat) : audio_hook_s :=
  match findStream h pcm with
  | some _ => h
  | none => { h with streams := newStream pcm :: h.streams }

/-- The stream audio_hook_get_stream_alsa hands back; after that call a
stream with the key always exists, so the default is never used. -/
def getStreamD (h : audio_hook_s) (pcm : Nat) : audio_hook_stream_s :=
  (findStream h pcm).getD (newStream pcm)

/-- Translation of pcm_fmt_to_glc_fmt. -/
def pcm_fmt_to_glc_fmt (pcm_fmt : Nat) : Nat :=
  if pcm_fmt = SND_PCM_FORMAT_S16_LE then GLC_AUDIO_S16_LE
  else if pcm_fmt = SND_PCM_FORMAT_S24_LE then GLC_AUDIO_S24_LE
  else if pcm_fmt = SND_PCM_FORMAT_S32_LE then GLC_AUDIO_S32_LE
  else GLC_AUDIO_FORMAT_UNKNOWN

/-- Translation of audio_hook_set_buffer. -/
def audio_hook_set_buffer (h : audio_hook_s) (buffer : Nat) : Nat × audio_hook_s :=
  match h.to_buffer with
  | some _ => (EALREADY, h)
  | none => (0, { h with to_buffer := some buffer })

/-- Translation of audio_hook_allow_skip. -/
def audio_hook_allow_skip (h : audio_hook_s) (allow : Bool) : Nat × audio_hook_s :=
  (0, { h with allow_skip := allow })

/-- Translation of audio_hook_wait_for_thread.  In ASYNC mode a producer
that finds the worker not ready either fails EBUSY after the dropped
audio data warning (allow-skip set) or spins with sched_yield until the
worker is ready; the spin and the blocking sem_wait on capture_empty are
modelled as eventually returning 0, the only way the source call
returns. -/
def audio_hook_wait_for_thread (h : audio_hook_s) (st : audio_hook_stream_s) :
    Nat × List Event :=
  if st.mode &&& SND_PCM_ASYNC ≠ 0 then
    if st.capture_ready = false then
      if h.allow_skip then (EBUSY, [Event.logWarning])
      else (0, [])
    else (0, [])
  else (0, [])

/-- Translation of audio_hook_set_data_size.  capture_size is updated
first; only a growth updates capture_data_size and reallocates, with
allocOk the malloc and realloc success oracle (a failed realloc leaves
the pointer NULL). -/
def audio_hook_set_data_size (st : audio_hook_stream_s) (size : Nat)
    (allocOk : Bool) : Nat × audio_hook_stream_s :=
  let st1 := { st with capture_size := size }
  if size ≤ st1.capture_data_size then (0, st1)
  else
    let st2 := { st1 with capture_data_size := size }
    if allocOk then (0, { st2 with capture_data := true })
    else (ENOMEM, { st2 with capture_data := false })

/-- Translation of audio_hook_stream_init, factored over the stream and
the modelled id registry counter instead of the whole hook: assign a
positive audio_i when still zero, emit the one-shot AUDIO_FORMAT packet,
tear down a running worker (post capture_full, wait capture_finished)
and spawn a fresh one, then mark the stream initialized.  Returns
(ret, next counter, stream, events). -/
def audio_hook_stream_init (nextId : Nat) (st : audio_hook_stream_s) :
    Nat × Nat × audio_hook_stream_s × List Event :=
  if st.fmt = false then (EINVAL, nextId, st, [])
  else
    let p := if st.audio_i < 1 then (nextId + 1, { st with audio_i := nextId })
      else (nextId, st)
    let nextId1 := p.1
    let st1 := p.2
    let evs1 : List Event :=
      [Event.logInfo, Event.emitFormat st1.audio_i st1.flags st1.rate st1.channels]
    let evs2 : List Event :=
      if st1.capture_running then [Event.postFull, Event.waitFinished] else []
    let st2 := { st1 with capture_running := true, initialized := true }
    (0, nextId1, st2, evs1 ++ evs2)

/-- The stream-list walk of audio_hook_init_streams: initialize every
pending stream that has a format, threading the id counter. -/
def audio_hook_init_streams_loop :
    Nat → List audio_hook_stream_s → Nat × List audio_hook_stream_s × List Event
  | nextId, [] => (nextId, [], [])
  | nextId, st :: rest =>
    if st.fmt = true ∧ st.initialized = false then
      let r := audio_hook_stream_init nextId st
      let q := audio_hook_init_streams_loop r.2.1 rest
      (q.1, r.2.2.1 :: q.2.1, r.2.2.2 ++ q.2.2)
    else
      let q := audio_hook_init_streams_loop nextId rest
      (q.1, st :: q.2.1, q.2.2)

/-- Translation of audio_hook_init_streams. -/
def audio_hook_init_streams (h : audio_hook_s) : HookResult :=
  if h.to_buffer = none then { ret := EAGAIN, hook := h, events := [] }
  else if h.started then { ret := EALREADY, hook := h, events := [] }
  else
    let q := audio_hook_init_streams_loop h.next_audio_id h.streams
    { ret := 0,
      hook := { h with streams := q.2.1, next_audio_id := q.1, started := true },
      events := q.2.2 }

/-- Translation of audio_hook_start. -/
def audio_hook_start (h : audio_hook_s) : HookResult :=
  if h.to_buffer = none then { ret := EAGAIN, hook := h, events := [Event.logError] }
  else
    let p := if h.started = false then
        let r := audio_hook_init_streams h
        (r.hook, r.events)
      else (h, ([] : List Event))
    let h1 := p.1
    let ev2 := if h1.capturing then Event.logWarning else Event.logInfo
    { ret := 0, hook := { h1 with capturing := true }, events := p.2 ++ [ev2] }

/-- Translation of audio_hook_stop. -/
def audio_hook_stop (h : audio_hook_s) : HookResult :=
  let ev := if h.capturing then Event.logInfo else Event.logWarning
  { ret := 0, hook := { h with capturing := false }, events := [ev] }

/-- Destruction events: worker shutdown handshakes, per-stream frees of
semaphores, locks, scratch and packet context, and the final free of the
hook itself. -/
inductive DestroyEvent where
  | shutdownWorker : DestroyEvent
  | freeStream : DestroyEvent
  | freeHook : DestroyEvent
deriving Repr, DecidableEq

/-- Translation of audio_hook_destroy; the argument models the
audio_hook pointer, none standing for NULL. -/
def audio_hook_destroy : Option audio_hook_s → Nat × List DestroyEvent
  | none => (EINVAL, [])
  | some h =>
    (0, h.streams.foldr (fun st acc =>
        (if st.capture_running then [DestroyEvent.shutdownWorker] else [])
          ++ DestroyEvent.freeStream :: acc)
      [DestroyEvent.freeHook])

/-- Translation of audio_hook_alsa_open: register the stream, record the
mode, log.  The device name argument is only logged and is dropped. -/
def audio_hook_alsa_open (h : audio_hook_s) (pcm : Nat) (mode : Nat) : HookResult :=
  let h1 := audio_hook_get_stream_alsa h pcm
  { ret := 0, hook := updateStream h1 pcm (fun st => { st with mode := mode }),
    events := [Event.logInfo] }

/-- Translation of audio_hook_alsa_close: register the stream, log, clear
fmt so that a later start skips it; the worker is not torn down. -/
def audio_hook_alsa_close (h : audio_hook_s) (pcm : Nat) : HookResult :=
  let h1 := audio_hook_get_stream_alsa h pcm
  { ret := 0, hook := updateStream h1 pcm (fun st => { st with fmt := false }),
    events := [Event.logInfo] }

/-- Translation of audio_hook_alsa_i (the writei hook).  buffer is the
application byte buffer, sampleBytes the negotiated sample width used by
the ALSA byte-size helpers, time the clock reading, allocOk the
allocation oracle.  Mirrors the source exactly, including the goto
unlock before the lock is taken on the uninitialized-stream path. -/
def audio_hook_alsa_i (h : audio_hook_s) (pcm : Nat) (buffer : Nat → Nat)
    (size sampleBytes time : Nat) (allocOk : Bool) : HookResult :=
  if h.capturing = false then { ret := 0, hook := h, events := [] }
  else
    let h1 := audio_hook_get_stream_alsa h pcm
    let st := getStreamD h1 pcm
    if st.initialized = false then
      { ret := EINVAL, hook := h1, events := [Event.unlock] }
    else
      let w := audio_hook_wait_for_thread h1 st
      if w.1 ≠ 0 then
        { ret := w.1, hook := h1, events := Event.lock :: w.2 ++ [Event.unlock] }
      else
        let d := audio_hook_set_data_size st
          (snd_pcm_frames_to_bytes st.channels sampleBytes size) allocOk
        if d.1 ≠ 0 then
          { ret := d.1, hook := updateStream h1 pcm (fun _ => d.2),
            events := Event.lock :: w.2 ++ [Event.unlock] }
        else
          let st2 := { d.2 with
            capture_time := time,
            capture_buf := memcpyAt d.2.capture_buf 0 buffer 0 d.2.capture_size }
          { ret := 0, hook := updateStream h1 pcm (fun _ => st2),
            events := Event.lock :: w.2 ++ [Event.postFull, Event.unlock] }

/-- Translation of audio_hook_alsa_n (the writen hook).  bufs maps a
channel index to that channel's application byte buffer.  As in the
source, an interleaved stream is rejected with EINVAL after the error
log, and the uninitialized-stream path runs goto unlock before the lock
is taken. -/
def audio_hook_alsa_n (h : audio_hook_s) (pcm : Nat) (bufs : Nat → Nat → Nat)
    (size sampleBytes time : Nat) (allocOk : Bool) : HookResult :=
  if h.capturing = false then { ret := 0, hook := h, events := [] }
  else
    let h1 := audio_hook_get_stream_alsa h pcm
    let st := getStreamD h1 pcm
    if st.initialized = false then
      { ret := EINVAL, hook := h1, events := [Event.unlock] }
    else if st.flags &&& GLC_AUDIO_INTERLEAVED ≠ 0 then
      { ret := EINVAL, hook := h1,
        events := [Event.lock, Event.logError, Event.unlock] }
    else
      let w := audio_hook_wait_for_thread h1 st
      if w.1 ≠ 0 then
        { ret := w.1, hook := h1, events := Event.lock :: w.2 ++ [Event.unlock] }
      else
        let d := audio_hook_set_data_size st
          (snd_pcm_frames_to_bytes st.channels sampleBytes size) allocOk
        if d.1 ≠ 0 then
          { ret := d.1, hook := updateStream h1 pcm (fun _ => d.2),
            events := Event.lock :: w.2 ++ [Event.unlock] }
        else
          let sbytes := snd_pcm_samples_to_bytes sampleBytes size
          let buf := (List.range st.channels).foldl
            (fun b c => memcpyAt b (c * sbytes) (bufs c) 0 sbytes) d.2.capture_buf
          let st2 := { d.2 with capture_time := time, capture_buf := buf }
          { ret := 0, hook := updateStream h1 pcm (fun _ => st2),
            events := Event.lock :: w.2 ++ [Event.postFull, Event.unlock] }

/-- Translation of audio_hook_alsa_mmap_begin: record areas, frames and
offset under the lock.  On an uninitialized stream the source unlocks
without having locked and returns EINVAL. -/
def audio_hook_alsa_mmap_begin (h : audio_hook_s) (pcm : Nat)
    (areas : List snd_pcm_channel_area_t) (offset frames : Nat) : HookResult :=
  if h.capturing = false then { ret := 0, hook := h, events := [] }
  else
    let h1 := audio_hook_get_stream_alsa h pcm
    let st := getStreamD h1 pcm
    if st.initialized = false then
      { ret := EINVAL, hook := h1, events := [Event.unlock] }
    else
      { ret := 0,
        hook := updateStream h1 pcm (fun _ =>
          { st with mmap_areas := some areas, frames := frames, offset := offset }),
        events := [Event.lock, Event.unlock] }

/-- Translation of audio_hook_alsa_mmap_commit.  mem is the process
memory backing the mapped channel areas.  The source returns 0 under the
lock for zero channels, returns EINVAL while still holding the lock when
no mmap_begin was recorded, warns on an offset mismatch, and copies with
the single-memcpy interleaved path, the complex converter, or the planar
per-channel path. -/
def audio_hook_alsa_mmap_commit (h : audio_hook_s) (pcm : Nat)
    (offset frames sampleBytes time : Nat) (mem : Nat → Nat)
    (allocOk : Bool) : HookResult :=
  if h.capturing = false then { ret := 0, hook := h, events := [] }
  else
    let h1 := audio_hook_get_stream_alsa h pcm
    let st := getStreamD h1 pcm
    if st.channels = 0 then
      { ret := 0, hook := h1, events := [Event.lock, Event.unlock] }
    else
      match st.mmap_areas with
      | none =>
        { ret := EINVAL, hook := h1, events := [Event.lock, Event.logWarning] }
      | some areas =>
        let oevs : List Event := if offset ≠ st.offset then [Event.logWarning] else []
        let w := audio_hook_wait_for_thread h1 st
        if w.1 ≠ 0 then
          { ret := w.1, hook := h1,
            events := Event.lock :: oevs ++ w.2 ++ [Event.unlock] }
        else
          let d := audio_hook_set_data_size st
            (snd_pcm_frames_to_bytes st.channels sampleBytes frames) allocOk
          if d.1 ≠ 0 then
            { ret := d.1, hook := updateStream h1 pcm (fun _ => d.2),
              events := Event.lock :: oevs ++ w.2 ++ [Event.unlock] }
          else
            let buf :=
              if d.2.flags &&& GLC_AUDIO_INTERLEAVED ≠ 0 then
                memcpyAt d.2.capture_buf 0 mem
                  (audio_hook_alsa_mmap_pos (areas.getD 0 ⟨0, 0, 0⟩) offset)
                  d.2.capture_size
              else if d.2.complex then
                audio_hook_complex_to_interleaved d.2.channels sampleBytes
                  areas offset frames mem d.2.capture_buf
              else
                (List.range d.2.channels).foldl (fun b c =>
                  memcpyAt b (c * snd_pcm_samples_to_bytes sampleBytes frames) mem
                    (audio_hook_alsa_mmap_pos (areas.getD c ⟨0, 0, 0⟩) offset)
                    (snd_pcm_samples_to_bytes sampleBytes frames)) d.2.capture_buf
            let st2 := { d.2 with capture_time := time, capture_buf := buf }
            { ret := 0, hook := updateStream h1 pcm (fun _ => st2),
              events := Event.lock :: oevs ++ w.2 ++ [Event.postFull, Event.unlock] }

/-- Tail of audio_hook_alsa_hw_params after a supported access mode was
recognized: mark fmt, run stream initialization when the hook is
started, unlock.  Factored out of the translation below; st carries the
flag, rate and channel updates already applied. -/
def hw_params_tail (h1 : audio_hook_s) (pcm : Nat)
    (st : audio_hook_stream_s) : HookResult :=
  let st4 := { st with fmt := true }
  if h1.started then
    let r := audio_hook_stream_init h1.next_audio_id st4
    if r.1 ≠ 0 then
      { ret := r.1,
        hook := updateStream { h1 with next_audio_id := r.2.1 } pcm (fun _ => r.2.2.1),
        events := [Event.lock, Event.logDebug, Event.logDebug] ++ r.2.2.2
          ++ [Event.logError, Event.unlock] }
    else
      { ret := 0,
        hook := updateStream { h1 with next_audio_id := r.2.1 } pcm (fun _ => r.2.2.1),
        events := [Event.lock, Event.logDebug, Event.logDebug] ++ r.2.2.2
          ++ [Event.unlock] }
  else
    { ret := 0, hook := updateStream h1 pcm (fun _ => st4),
      events := [Event.lock, Event.logDebug, Event.logDebug, Event.unlock] }

/-- Translation of audio_hook_alsa_hw_params.  The snd_pcm_hw_params
getters are modelled as total reads of the params record (spec section 7
calls a getter failure a host error surfaced verbatim; all such paths
unlock and return, like the modelled unsupported-format and
unsupported-access paths).  Partial updates of the stream made before an
error are persisted, as the source mutates the live struct. -/
def audio_hook_alsa_hw_params (h : audio_hook_s) (pcm : Nat)
    (format rate channels access : Nat) : HookResult :=
  let h1 := audio_hook_get_stream_alsa h pcm
  let st := getStreamD h1 pcm
  let st2 := { st with flags := 0 ||| pcm_fmt_to_glc_fmt format }
  if st2.flags &&& GLC_AUDIO_FORMAT_UNKNOWN ≠ 0 then
    { ret := ENOTSUP, hook := updateStream h1 pcm (fun _ => st2),
      events := [Event.lock, Event.logDebug, Event.logError, Event.logError,
        Event.unlock] }
  else
    let st3 := { st2 with rate := rate, channels := channels }
    if access = SND_PCM_ACCESS_RW_INTERLEAVED
        ∨ access = SND_PCM_ACCESS_MMAP_INTERLEAVED then
      hw_params_tail h1 pcm { st3 with flags := st3.flags ||| GLC_AUDIO_INTERLEAVED }
    else if access = SND_PCM_ACCESS_MMAP_COMPLEX then
      hw_params_tail h1 pcm
        { st3 with flags := st3.flags ||| GLC_AUDIO_INTERLEAVED, complex := true }
    else
      { ret := ENOTSUP, hook := updateStream h1 pcm (fun _ => st3),
        events := [Event.lock, Event.logDebug, Event.logError, Event.logError,
          Event.unlock] }

/-- Lock-trace well-formedness: scanning the events with a lock depth
counter, no unlock occurs at depth zero and the trace ends balanced. -/
def wellLockedFrom : Nat → List Event → Bool
  | d, [] => d == 0
  | d, e :: rest =>
    if e = Event.lock then wellLockedFrom (d + 1) rest
    else if e = Event.unlock then
      if d = 0 then false else wellLockedFrom (d - 1) rest
    else wellLockedFrom d rest

/-- A trace acquires and releases the write lock in a balanced way and
never releases a lock it does not hold. -/
def wellLocked (evs : List Event) : Bool := wellLockedFrom 0 evs

/-- When the stream is already registered, the registry lookup leaves the
hook unchanged. -/
theorem get_stream_found (h : audio_hook_s) (pcm : Nat) (st : audio_hook_stream_s)
    (hfind : findStream h pcm = some st) :
    audio_hook_get_stream_alsa h pcm = h := by
  unfold audio_hook_get_stream_alsa
  rw [hfind]

/-- When the stream is already registered, getStreamD returns it. -/
theorem getStreamD_found (h : audio_hook_s) (pcm : Nat) (st : audio_hook_stream_s)
    (hfind : findStream h pcm = some st) : getStreamD h pcm = st := by
  unfold getStreamD
  rw [hfind]
  rfl

/-- A located stream carries the key it was looked up by. -/
theorem findStream_pcm (h : audio_hook_s) (pcm : Nat) (st : audio_hook_stream_s)
    (hfind : findStream h pcm = some st) : st.pcm = pcm := by
  unfold findStream at hfind
  have hp := List.find?_some hfind
  simpa using hp

/-- Updating the located stream through its key is observed by a
subsequent lookup, provided the update preserves the key. -/
theorem find?_map_update (l : List audio_hook_stream_s) (pcm : Nat)
    (f : audio_hook_stream_s → audio_hook_stream_s) (st : audio_hook_stream_s)
    (hfind : l.find? (fun s => s.pcm == pcm) = some st)
    (hf : (f st).pcm = st.pcm) :
    (l.map (fun s => if s.pcm == pcm then f s else s)).find? (fun s => s.pcm == pcm)
      = some (f st) := by
  induction l with
  | nil => simp at hfind
  | cons a l ih =>
    by_cases ha : (a.pcm == pcm) = true
    · have h1 : List.find? (fun s => s.pcm == pcm) (a :: l) = some a :=
        List.find?_cons_of_pos l ha
      rw [h1] at hfind
      injection hfind with hst
      subst hst
      have hfa : ((f a).pcm == pcm) = true := by
        rw [hf]
        exact ha
      have hpc : a.pcm = pcm := by simpa using ha
      have h2 : List.map (fun s => if (s.pcm == pcm) = true then f s else s) (a :: l)
          = f a :: List.map (fun s => if (s.pcm == pcm) = true then f s else s) l := by
        simp [hpc]
      rw [h2]
      exact List.find?_cons_of_pos _ hfa
    · have h1 : List.find? (fun s => s.pcm == pcm) (a :: l)
          = List.find? (fun s => s.pcm == pcm) l :=
        List.find?_cons_of_neg l ha
      rw [h1] at hfind
      have hpc : ¬ a.pcm = pcm := by simpa using ha
      have h2 : List.map (fun s => if (s.pcm == pcm) = true then f s else s) (a :: l)
          = a :: List.map (fun s => if (s.pcm == pcm) = true then f s else s) l := by
        simp [hpc]
      rw [h2]
      have h3 : List.find? (fun s => s.pcm == pcm)
            (a :: List.map (fun s => if (s.pcm == pcm) = true then f s else s) l)
          = List.find? (fun s => s.pcm == pcm)
            (List.map (fun s => if (s.pcm == pcm) = true then f s else s) l) :=
        List.find?_cons_of_neg _ ha
      rw [h3]
      exact ih hfind

/-- Hook-level version of find?_map_update. -/
theorem findStream_updateStream (h : audio_hook_s) (pcm : Nat)
    (f : audio_hook_stream_s → audio_hook_stream_s) (st : audio_hook_stream_s)
    (hfind : findStream h pcm = some st) (hf : (f st).pcm = st.pcm) :
    findStream (updateStream h pcm f) pcm = some (f st) := by
  unfold findStream updateStream
  unfold findStream at hfind
  exact find?_map_update h.streams pcm f st hfind hf

/-- After the registry call, a stream with the key exists and is the one
getStreamD reads. -/
theorem findStream_get_stream (h : audio_hook_s) (pcm : Nat) :
    findStream (audio_hook_get_stream_alsa h pcm) pcm
      = some (getStreamD (audio_hook_get_stream_alsa h pcm) pcm) := by
  unfold audio_hook_get_stream_alsa getStreamD findStream
  cases hF : h.streams.find? (fun s => s.pcm == pcm) with
  | some st => simp [hF]
  | none => simp [hF, newStream]

/-- The registry call touches only the stream list: started survives. -/
theorem get_stream_started (h : audio_hook_s) (pcm : Nat) :
    (audio_hook_get_stream_alsa h pcm).started = h.started := by
  unfold audio_hook_get_stream_alsa
  cases findStream h pcm <;> rfl

/-- The registry call touches only the stream list: the id counter
survives. -/
theorem get_stream_next_id (h : audio_hook_s) (pcm : Nat) :
    (audio_hook_get_stream_alsa h pcm).next_audio_id = h.next_audio_id := by
  unfold audio_hook_get_stream_alsa
  cases findStream h pcm <;> rfl

/-- The wait-for-worker step either succeeds silently or fails EBUSY
after the dropped-data warning. -/
theorem wait_for_thread_cases (h : audio_hook_s) (st : audio_hook_stream_s) :
    audio_hook_wait_for_thread h st = (0, ([] : List Event))
    ∨ audio_hook_wait_for_thread h st = (EBUSY, [Event.logWarning]) := by
  unfold audio_hook_wait_for_thread
  split_ifs <;> simp

/-- Growing the scratch buffer returns 0 or ENOMEM. -/
theorem set_data_size_ret (st : audio_hook_stream_s) (size : Nat) (allocOk : Bool) :
    (audio_hook_set_data_size st size allocOk).1 = 0
    ∨ (audio_hook_set_data_size st size allocOk).1 = ENOMEM := by
  unfold audio_hook_set_data_size
  by_cases hle : size ≤ st.capture_data_size <;>
  by_cases ha : allocOk = true <;>
  simp [hle, ha]

/-- The lock trace of the hw_params tail is always balanced. -/
theorem hw_params_tail_wellLocked (h1 : audio_hook_s) (pcm : Nat)
    (st : audio_hook_stream_s) :
    wellLocked (hw_params_tail h1 pcm st).events = true := by
  by_cases hs : h1.started <;>
  by_cases hi : st.audio_i < 1 <;>
  by_cases hr : st.capture_running <;>
  simp [hw_params_tail, audio_hook_stream_init, hs, hi, hr, wellLocked,
    wellLockedFrom]

/-- Example hook in capturing state whose only stream is freshly
registered and still uninitialized. -/
def exHookUC : audio_hook_s :=
  { capturing := true, allow_skip := false, to_buffer := some 1, started := false,
    streams := [newStream 1], next_audio_id := 1 }

/-- Claim C2 counterexample: with capturing set and the located stream
uninitialized, the claim demands EINVAL from every one of writei,
writen, mmap_begin and mmap_commit; but mmap_commit never checks
initialized, and on a freshly registered stream (channels = 0) it
returns 0. -/
theorem C2_counterexample :
    (newStream 1).initialized = false
    ∧ exHookUC.capturing = true
    ∧ (audio_hook_alsa_mmap_commit exHookUC 1 0 4 2 5 (fun i => i) true).ret = 0
    ∧ EINVAL ≠ 0 := by
  refine ⟨rfl, rfl, rfl, by decide⟩

/-- Claim C2 (amended): with capturing set and the located stream
uninitialized, writei, writen and mmap_begin return EINVAL, leave the
hook unchanged and post no capture_full; mmap_commit performs no
initialized check: on an uninitialized stream (which can have no
recorded mmap area, since mmap_begin refuses uninitialized streams) it
returns 0 when channels = 0 and EINVAL via the missing-mmap_begin check
otherwise, and posts no capture_full either way. -/
theorem C2_uninitialized_producers (h : audio_hook_s) (pcm : Nat)
    (st : audio_hook_stream_s) (buffer : Nat → Nat) (bufs : Nat → Nat → Nat)
    (areas : List snd_pcm_channel_area_t)
    (size offset frames sampleBytes time : Nat) (mem : Nat → Nat) (allocOk : Bool)
    (hcap : h.capturing = true)
    (hfind : findStream h pcm = some st)
    (hinit : st.initialized = false)
    (harea : st.mmap_areas = none) :
    audio_hook_alsa_i h pcm buffer size sampleBytes time allocOk
      = { ret := EINVAL, hook := h, events := [Event.unlock] }
    ∧ audio_hook_alsa_n h pcm bufs size sampleBytes time allocOk
      = { ret := EINVAL, hook := h, events := [Event.unlock] }
    ∧ audio_hook_alsa_mmap_begin h pcm areas offset frames
      = { ret := EINVAL, hook := h, events := [Event.unlock] }
    ∧ (audio_hook_alsa_mmap_commit h pcm offset frames sampleBytes time mem allocOk).ret
      = (if st.channels = 0 then 0 else EINVAL)
    ∧ Event.postFull ∉
      (audio_hook_alsa_mmap_commit h pcm offset frames sampleBytes time mem allocOk).events := by
  have hg := get_stream_found h pcm st hfind
  have hd := getStreamD_found h pcm st hfind
  refine ⟨?_, ?_, ?_, ?_, ?_⟩
  · simp [audio_hook_alsa_i, hg, hd, hcap, hinit]
  · simp [audio_hook_alsa_n, hg, hd, hcap, hinit]
  · simp [audio_hook_alsa_mmap_begin, hg, hd, hcap, hinit]
  · by_cases hch : st.channels = 0
    · simp [audio_hook_alsa_mmap_commit, hg, hd, hcap, hch]
    · simp [audio_hook_alsa_mmap_commit, hg, hd, hcap, hch, harea]
  · by_cases hch : st.channels = 0
    · simp [audio_hook_alsa_mmap_commit, hg, hd, hcap, hch]
    · simp [audio_hook_alsa_mmap_commit, hg, hd, hcap, hch, harea]

/-- Claim C2 witness: the amended theorem applied to the example hook
with its freshly registered uninitialized stream. -/
theorem C2_witness :
    audio_hook_alsa_i exHookUC 1 (fun _ => 0) 4 2 5 true
      = { ret := EINVAL, hook := exHookUC, events := [Event.unlock] }
    ∧ (audio_hook_alsa_mmap_commit exHookUC 1 0 4 2 5 (fun _ => 0) true).ret
      = (if (newStream 1).channels = 0 then 0 else EINVAL) := by
  have r := C2_uninitialized_producers exHookUC 1 (newStream 1) (fun _ => 0)
    (fun _ _ => 0) [] 4 0 4 2 5 (fun _ => 0) true rfl rfl rfl rfl
  exact ⟨r.1, r.2.2.2.1⟩

/-- Example stream that is initialized with two channels but has no
recorded mmap area (no mmap_begin yet). -/
def exStreamNoBegin : audio_hook_stream_s :=
  { newStream 1 with channels := 2, initialized := true, fmt := true }

/-- Example capturing hook holding exStreamNoBegin. -/
def exHookNoBegin : audio_hook_s :=
  { capturing := true, allow_skip := false, to_buffer := some 1, started := true,
    streams := [exStreamNoBegin], next_audio_id := 2 }

/-- Claim C3 counterexample: mmap_commit with no recorded mmap_begin
acquires the lock and returns while still holding it, and writei on an
uninitialized stream releases a lock it never acquired; both traces
violate the claimed lock discipline. -/
theorem C3_counterexample :
    (audio_hook_alsa_mmap_commit exHookNoBegin 1 0 4 2 5 (fun i => i) true).events
      = [Event.lock, Event.logWarning]
    ∧ wellLocked [Event.lock, Event.logWarning] = false
    ∧ (audio_hook_alsa_i exHookUC 1 (fun i => i) 4 2 5 true).events = [Event.unlock]
    ∧ wellLocked [Event.unlock] = false := by
  refine ⟨rfl, rfl, rfl, rfl⟩

/-- Claim C3 (amended): hw_params balances its lock on every path and
every input, with no proviso at all (even when the call itself registers
the stream); writei, writen and mmap_begin balance theirs provided only
that the located stream is initialized (on an uninitialized stream they
unlock without having locked); mmap_commit balances provided only that
channels is zero or a mmap_begin was recorded (otherwise it returns
holding the lock).  Each conjunct carries exactly its own proviso. -/
theorem C3_lock_discipline (h : audio_hook_s) (pcm : Nat)
    (buffer : Nat → Nat) (bufs : Nat → Nat → Nat)
    (areas : List snd_pcm_channel_area_t)
    (size offset frames sampleBytes time format rate channels access : Nat)
    (mem : Nat → Nat) (allocOk : Bool) :
    (∀ st, findStream h pcm = some st → st.initialized = true →
      wellLocked (audio_hook_alsa_i h pcm buffer size sampleBytes time
        allocOk).events = true)
    ∧ (∀ st, findStream h pcm = some st → st.initialized = true →
      wellLocked (audio_hook_alsa_n h pcm bufs size sampleBytes time
        allocOk).events = true)
    ∧ (∀ st, findStream h pcm = some st → st.initialized = true →
      wellLocked (audio_hook_alsa_mmap_begin h pcm areas offset frames).events = true)
    ∧ (∀ st, findStream h pcm = some st → st.channels = 0 ∨ st.mmap_areas ≠ none →
      wellLocked (audio_hook_alsa_mmap_commit h pcm offset frames sampleBytes time mem
        allocOk).events = true)
    ∧ wellLocked (audio_hook_alsa_hw_params h pcm format rate channels access).events
        = true := by
  refine ⟨?_, ?_, ?_, ?_, ?_⟩
  · intro st hfind hinit
    have hg := get_stream_found h pcm st hfind
    have hd := getStreamD_found h pcm st hfind
    by_cases hcap : h.capturing = false
    · simp [audio_hook_alsa_i, hcap, wellLocked, wellLockedFrom]
    · rcases wait_for_thread_cases h st with hw | hw <;>
      rcases set_data_size_ret st (snd_pcm_frames_to_bytes st.channels sampleBytes size)
        allocOk with hd1 | hd1 <;>
      simp [audio_hook_alsa_i, hcap, hg, hd, hinit, hw, hd1, wellLocked,
        wellLockedFrom, EBUSY, ENOMEM]
  · intro st hfind hinit
    have hg := get_stream_found h pcm st hfind
    have hd := getStreamD_found h pcm st hfind
    by_cases hcap : h.capturing = false
    · simp [audio_hook_alsa_n, hcap, wellLocked, wellLockedFrom]
    · by_cases hint : st.flags &&& GLC_AUDIO_INTERLEAVED ≠ 0
      · simp [audio_hook_alsa_n, hcap, hg, hd, hinit, hint, wellLocked, wellLockedFrom]
      · rcases wait_for_thread_cases h st with hw | hw <;>
        rcases set_data_size_ret st (snd_pcm_frames_to_bytes st.channels sampleBytes size)
          allocOk with hd1 | hd1 <;>
        simp [audio_hook_alsa_n, hcap, hg, hd, hinit, hint, hw, hd1, wellLocked,
          wellLockedFrom, EBUSY, ENOMEM]
  · intro st hfind hinit
    have hg := get_stream_found h pcm st hfind
    have hd := getStreamD_found h pcm st hfind
    by_cases hcap : h.capturing = false <;>
    simp [audio_hook_alsa_mmap_begin, hcap, hg, hd, hinit, wellLocked, wellLockedFrom]
  · intro st hfind hcommit
    have hg := get_stream_found h pcm st hfind
    have hd := getStreamD_found h pcm st hfind
    by_cases hcap : h.capturing = false
    · simp [audio_hook_alsa_mmap_commit, hcap, wellLocked, wellLockedFrom]
    · by_cases hch : st.channels = 0
      · simp [audio_hook_alsa_mmap_commit, hcap, hg, hd, hch, wellLocked, wellLockedFrom]
      · have harea2 : st.mmap_areas ≠ none := hcommit.resolve_left hch
        rcases hA : st.mmap_areas with _ | a
        · exact absurd hA harea2
        · by_cases hoff : offset ≠ st.offset <;>
          rcases wait_for_thread_cases h st with hw | hw <;>
          rcases set_data_size_ret st
            (snd_pcm_frames_to_bytes st.channels sampleBytes frames) allocOk
            with hd1 | hd1 <;>
          simp [audio_hook_alsa_mmap_commit, hcap, hg, hd, hA, hch, hoff, hw, hd1,
            wellLocked, wellLockedFrom, EBUSY, ENOMEM]
  · simp only [audio_hook_alsa_hw_params]
    split_ifs with h1c h2c h3c
    · simp [wellLocked, wellLockedFrom]
    · exact hw_params_tail_wellLocked _ pcm _
    · exact hw_params_tail_wellLocked _ pcm _
    · simp [wellLocked, wellLockedFrom]

/-- Example stream that is fully initialized with a recorded mmap area
(flags 18 = GLC_AUDIO_S16_LE plus GLC_AUDIO_INTERLEAVED). -/
def exStreamInit : audio_hook_stream_s :=
  { newStream 1 with
    initialized := true, fmt := true, channels := 2, rate := 44100,
    flags := 18, audio_i := 1, capture_running := true, capture_ready := true,
    mmap_areas := some [⟨0, 0, 16⟩, ⟨100, 0, 16⟩] }

/-- Example capturing hook holding exStreamInit. -/
def exHookInit : audio_hook_s :=
  { capturing := true, allow_skip := false, to_buffer := some 1, started := true,
    streams := [exStreamInit], next_audio_id := 2 }

/-- Claim C3 witness: the amended lock discipline applied to writei on an
initialized stream with no recorded mmap area, to mmap_commit on a
stream with a recorded area, and (unconditionally) to the first
hw_params on a hook whose stream is still uninitialized. -/
theorem C3_witness :
    wellLocked (audio_hook_alsa_i exHookNoBegin 1 (fun _ => 7) 4 2 5 true).events = true
    ∧ wellLocked (audio_hook_alsa_mmap_commit exHookInit 1 0 4 2 5 (fun _ => 7)
        true).events = true
    ∧ wellLocked (audio_hook_alsa_hw_params exHookUC 1 SND_PCM_FORMAT_S16_LE 44100 2
        SND_PCM_ACCESS_RW_INTERLEAVED).events = true := by
  have r1 := C3_lock_discipline exHookNoBegin 1 (fun _ => 7) (fun _ _ => 7) [] 4 0 4 2 5
    SND_PCM_FORMAT_S16_LE 44100 2 SND_PCM_ACCESS_RW_INTERLEAVED (fun _ => 7) true
  have r2 := C3_lock_discipline exHookInit 1 (fun _ => 7) (fun _ _ => 7) [] 4 0 4 2 5
    SND_PCM_FORMAT_S16_LE 44100 2 SND_PCM_ACCESS_RW_INTERLEAVED (fun _ => 7) true
  have r3 := C3_lock_discipline exHookUC 1 (fun _ => 7) (fun _ _ => 7) [] 4 0 4 2 5
    SND_PCM_FORMAT_S16_LE 44100 2 SND_PCM_ACCESS_RW_INTERLEAVED (fun _ => 7) true
  exact ⟨r1.1 exStreamNoBegin rfl rfl,
    r2.2.2.2.1 exStreamInit rfl (Or.inr (by decide)),
    r3.2.2.2.2⟩

/-- Example hook with capturing clear and no streams. -/
def exHookIdle : audio_hook_s :=
  { capturing := false, allow_skip := false, to_buffer := some 1, started := false,
    streams := [], next_audio_id := 1 }

/-- Claim C4 counterexample: with capturing clear, open still registers a
stream (the stream list grows) and hw_params still runs fully (the fresh
stream ends with fmt set), so open, close and hw_params are not no-ops;
they do return success. -/
theorem C4_counterexample :
    exHookIdle.capturing = false
    ∧ (audio_hook_alsa_open exHookIdle 1 SND_PCM_ASYNC).ret = 0
    ∧ (audio_hook_alsa_open exHookIdle 1 SND_PCM_ASYNC).hook.streams.length = 1
    ∧ exHookIdle.streams.length = 0
    ∧ (audio_hook_alsa_hw_params exHookIdle 1 SND_PCM_FORMAT_S16_LE 44100 2
        SND_PCM_ACCESS_RW_INTERLEAVED).hook.streams.map (fun s => s.fmt) = [true] := by
  refine ⟨rfl, rfl, rfl, rfl, rfl⟩

/-- Claim C4 (amended): writei, writen, mmap_begin and mmap_commit
short-circuit with success, unchanged state and no events when capturing
is clear; open, close and hw_params do not check capturing and run
normally (open registers the stream and records its mode, close clears
fmt, hw_params extracts and applies the configuration). -/
theorem C4_not_capturing_noop (h : audio_hook_s) (pcm : Nat) (buffer : Nat → Nat)
    (bufs : Nat → Nat → Nat) (areas : List snd_pcm_channel_area_t)
    (size offset frames sampleBytes time : Nat) (mem : Nat → Nat) (allocOk : Bool)
    (hcap : h.capturing = false) :
    audio_hook_alsa_i h pcm buffer size sampleBytes time allocOk
      = { ret := 0, hook := h, events := [] }
    ∧ audio_hook_alsa_n h pcm bufs size sampleBytes time allocOk
      = { ret := 0, hook := h, events := [] }
    ∧ audio_hook_alsa_mmap_begin h pcm areas offset frames
      = { ret := 0, hook := h, events := [] }
    ∧ audio_hook_alsa_mmap_commit h pcm offset frames sampleBytes time mem allocOk
      = { ret := 0, hook := h, events := [] } := by
  refine ⟨?_, ?_, ?_, ?_⟩ <;>
  simp [audio_hook_alsa_i, audio_hook_alsa_n, audio_hook_alsa_mmap_begin,
    audio_hook_alsa_mmap_commit, hcap]

/-- Claim C4 witness: the amended no-op theorem applied to the idle
example hook. -/
theorem C4_witness :
    audio_hook_alsa_i exHookIdle 1 (fun _ => 3) 4 2 5 true
      = { ret := 0, hook := exHookIdle, events := [] }
    ∧ audio_hook_alsa_mmap_commit exHookIdle 1 0 4 2 5 (fun _ => 3) true
      = { ret := 0, hook := exHookIdle, events := [] } := by
  have r := C4_not_capturing_noop exHookIdle 1 (fun _ => 3) (fun _ _ => 3) [] 4 0 4 2 5
    (fun _ => 3) true rfl
  exact ⟨r.1, r.2.2.2⟩

/-- Stream initialization succeeds whenever the stream has a format. -/
theorem stream_init_fmt_true (nextId : Nat) (st : audio_hook_stream_s)
    (hfmt : st.fmt = true) : (audio_hook_stream_init nextId st).1 = 0 := by
  by_cases hi : st.audio_i < 1 <;>
  simp [audio_hook_stream_init, hfmt, hi]

/-- Stream initialization preserves the pcm key. -/
theorem stream_init_pcm (nextId : Nat) (st : audio_hook_stream_s) :
    (audio_hook_stream_init nextId st).2.2.1.pcm = st.pcm := by
  by_cases hf : st.fmt = false <;>
  by_cases hi : st.audio_i < 1 <;>
  simp [audio_hook_stream_init, hf, hi]

/-- With a positive id counter, stream initialization leaves a positive
audio_i: either it keeps an already positive id or it assigns the
counter. -/
theorem stream_init_audio_pos (nextId : Nat) (st : audio_hook_stream_s)
    (hfmt : st.fmt = true) (hid : 1 ≤ nextId) :
    0 < (audio_hook_stream_init nextId st).2.2.1.audio_i := by
  by_cases hi : st.audio_i < 1 <;>
  simp [audio_hook_stream_init, hfmt, hi] <;>
  omega

/-- On a started hook with a positive id counter, the hw_params tail
leaves the located stream with a positive audio_i. -/
theorem hw_params_tail_finds (h1 : audio_hook_s) (pcm : Nat)
    (st0 st' : audio_hook_stream_s)
    (hs : h1.started = true) (hid : 1 ≤ h1.next_audio_id)
    (hfind : findStream h1 pcm = some st0)
    (hp : st'.pcm = st0.pcm) :
    ∃ st2, findStream (hw_params_tail h1 pcm st').hook pcm = some st2
      ∧ 0 < st2.audio_i := by
  have hr0 : (audio_hook_stream_init h1.next_audio_id { st' with fmt := true }).1 = 0 :=
    stream_init_fmt_true h1.next_audio_id { st' with fmt := true } rfl
  simp only [hw_params_tail, hs, if_true, hr0, ne_eq, not_true_eq_false, if_false,
    not_false_eq_true]
  refine ⟨_, findStream_updateStream _ pcm _ st0 hfind ?_,
    stream_init_audio_pos _ _ rfl hid⟩
  rw [stream_init_pcm]
  exact hp

/-- Claim C5 counterexample: on a hook that has not been started, the
first hw_params succeeds yet leaves the stream's audio_id at 0. -/
theorem C5_counterexample :
    exHookIdle.started = false
    ∧ (audio_hook_alsa_hw_params exHookIdle 1 SND_PCM_FORMAT_S16_LE 44100 2
        SND_PCM_ACCESS_RW_INTERLEAVED).ret = 0
    ∧ (findStream (audio_hook_alsa_hw_params exHookIdle 1 SND_PCM_FORMAT_S16_LE 44100 2
        SND_PCM_ACCESS_RW_INTERLEAVED).hook 1).map (fun s => s.audio_i) = some 0 := by
  refine ⟨rfl, rfl, rfl⟩

/-- Claim C5 (amended): audio_id is assigned by stream initialization,
which hw_params runs only when the hook is started: on a started hook
whose modelled id registry counter is positive, every successful
hw_params leaves the located stream with audio_id strictly greater than
0; before start, a successful hw_params leaves audio_id untouched (0 for
a fresh stream) until start initializes pending streams. -/
theorem C5_hw_params_started (h : audio_hook_s) (pcm : Nat)
    (format rate channels access : Nat)
    (hstart : h.started = true) (hid : 1 ≤ h.next_audio_id)
    (hret : (audio_hook_alsa_hw_params h pcm format rate channels access).ret = 0) :
    ∃ st, findStream
        (audio_hook_alsa_hw_params h pcm format rate channels access).hook pcm
      = some st ∧ 0 < st.audio_i := by
  have hs1 : (audio_hook_get_stream_alsa h pcm).started = true := by
    rw [get_stream_started, hstart]
  have hid1 : 1 ≤ (audio_hook_get_stream_alsa h pcm).next_audio_id := by
    rw [get_stream_next_id]
    exact hid
  have hfg := findStream_get_stream h pcm
  simp only [audio_hook_alsa_hw_params] at hret ⊢
  split_ifs at hret ⊢ with h1c h2c h3c
  · simp [ENOTSUP] at hret
  · exact hw_params_tail_finds (audio_hook_get_stream_alsa h pcm) pcm
      (getStreamD (audio_hook_get_stream_alsa h pcm) pcm) _ hs1 hid1 hfg rfl
  · exact hw_params_tail_finds (audio_hook_get_stream_alsa h pcm) pcm
      (getStreamD (audio_hook_get_stream_alsa h pcm) pcm) _ hs1 hid1 hfg rfl
  · simp [ENOTSUP] at hret

/-- Example started hook with an empty stream list and a fresh id
counter. -/
def exHookStarted : audio_hook_s :=
  { capturing := true, allow_skip := false, to_buffer := some 1, started := true,
    streams := [], next_audio_id := 1 }

/-- Claim C5 witness: the amended theorem applied to a started hook and a
successful S16_LE interleaved hw_params. -/
theorem C5_witness :
    ∃ st, findStream (audio_hook_alsa_hw_params exHookStarted 1 SND_PCM_FORMAT_S16_LE
        44100 2 SND_PCM_ACCESS_RW_INTERLEAVED).hook 1 = some st ∧ 0 < st.audio_i :=
  C5_hw_params_started exHookStarted 1 SND_PCM_FORMAT_S16_LE 44100 2
    SND_PCM_ACCESS_RW_INTERLEAVED rfl (by decide) rfl

/-- Claim C6: while capturing, writen on an initialized stream whose
negotiated flags include INTERLEAVED returns EINVAL and emits nothing:
the hook state is unchanged (so the scratch buffer is untouched) and the
trace is lock, error log, unlock, with no capture_full post. -/
theorem C6_writen_interleaved (h : audio_hook_s) (pcm : Nat)
    (st : audio_hook_stream_s) (bufs : Nat → Nat → Nat)
    (size sampleBytes time : Nat) (allocOk : Bool)
    (hcap : h.capturing = true)
    (hfind : findStream h pcm = some st)
    (hinit : st.initialized = true)
    (hintl : st.flags &&& GLC_AUDIO_INTERLEAVED ≠ 0) :
    audio_hook_alsa_n h pcm bufs size sampleBytes time allocOk
      = { ret := EINVAL, hook := h,
          events := [Event.lock, Event.logError, Event.unlock] } := by
  have hg := get_stream_found h pcm st hfind
  have hd := getStreamD_found h pcm st hfind
  simp [audio_hook_alsa_n, hcap, hg, hd, hinit, hintl]

/-- Claim C6 witness: writen on the interleaved example stream. -/
theorem C6_witness :
    exStreamInit.flags &&& GLC_AUDIO_INTERLEAVED ≠ 0
    ∧ audio_hook_alsa_n exHookInit 1 (fun _ _ => 9) 4 2 5 true
      = { ret := EINVAL, hook := exHookInit,
          events := [Event.lock, Event.logError, Event.unlock] } :=
  ⟨by decide,
    C6_writen_interleaved exHookInit 1 exStreamInit (fun _ _ => 9) 4 2 5 true
      rfl rfl rfl (by decide)⟩

/-- Claim C7: set_buffer binds the transport exactly once: with no
transport bound it returns 0 and records the buffer, after which a
second call returns EALREADY and leaves the recorded transport
unchanged; and on any hook with a transport already bound it returns
EALREADY and changes nothing. -/
theorem C7_set_buffer_once (h hb : audio_hook_s) (b1 b2 t : Nat)
    (hnone : h.to_buffer = none) (hbound : hb.to_buffer = some t) :
    audio_hook_set_buffer h b1 = (0, { h with to_buffer := some b1 })
    ∧ (audio_hook_set_buffer (audio_hook_set_buffer h b1).2 b2).1 = EALREADY
    ∧ (audio_hook_set_buffer (audio_hook_set_buffer h b1).2 b2).2.to_buffer = some b1
    ∧ audio_hook_set_buffer hb b2 = (EALREADY, hb) := by
  refine ⟨?_, ?_, ?_, ?_⟩ <;>
  simp [audio_hook_set_buffer, hnone, hbound]

/-- Example hook with no transport bound. -/
def exHookNoBuf : audio_hook_s :=
  { capturing := false, allow_skip := false, to_buffer := none, started := false,
    streams := [], next_audio_id := 1 }

/-- Claim C7 witness: the one-shot transport binding on concrete hooks. -/
theorem C7_witness :
    audio_hook_set_buffer exHookNoBuf 5 = (0, { exHookNoBuf with to_buffer := some 5 })
    ∧ (audio_hook_set_buffer (audio_hook_set_buffer exHookNoBuf 5).2 6).1 = EALREADY
    ∧ audio_hook_set_buffer exHookInit 6 = (EALREADY, exHookInit) := by
  have r := C7_set_buffer_once exHookNoBuf exHookInit 5 6 1 rfl rfl
  exact ⟨r.1, r.2.1, r.2.2.2⟩

/-- Claim C8: with a transport bound, a hook that is already started and
capturing handles a second start by returning success, logging the
already-active warning, and leaving the hook (and thus every stream)
exactly as it was; stream initialization is not re-run because the
started flag short-circuits it. -/
theorem C8_start_idempotent (h : audio_hook_s) (b : Nat)
    (hto : h.to_buffer = some b) (hstarted : h.started = true)
    (hcap : h.capturing = true) :
    audio_hook_start h = { ret := 0, hook := h, events := [Event.logWarning] } := by
  cases h with
  | mk c a t s sl n =>
    replace hto : t = some b := hto
    replace hstarted : s = true := hstarted
    replace hcap : c = true := hcap
    subst hto hstarted hcap
    simp [audio_hook_start]

/-- Claim C8 witness: a second start on the running example hook. -/
theorem C8_witness :
    audio_hook_start exHookInit
      = { ret := 0, hook := exHookInit, events := [Event.logWarning] } :=
  C8_start_idempotent exHookInit 1 rfl rfl rfl

/-- Claim C9: destroy on a NULL hook pointer returns EINVAL and performs
no deallocation or other state change (the destruction trace is empty). -/
theorem C9_destroy_null : audio_hook_destroy none = (EINVAL, []) := rfl

/-- Claim C10: growing the scratch buffer is not atomic on failure: when
the requested size exceeds the recorded capacity and the allocation
fails, set_data_size returns ENOMEM with capture_size and
capture_data_size already set to the requested size (and the data
pointer now NULL), so the recorded capacity no longer reflects an
allocated buffer. -/
theorem C10_set_data_size_nonatomic (st : audio_hook_stream_s) (size : Nat)
    (hgrow : st.capture_data_size < size) :
    audio_hook_set_data_size st size false
      = (ENOMEM, { st with
          capture_size := size, capture_data_size := size,
          capture_data := false }) := by
  have hle : ¬ size ≤ st.capture_data_size := by omega
  simp [audio_hook_set_data_size, hle]

/-- Claim C10 witness: a failed growth from capacity 0 to 16 bytes. -/
theorem C10_witness :
    audio_hook_set_data_size (newStream 1) 16 false
      = (ENOMEM, { newStream 1 with
          capture_size := 16, capture_data_size := 16,
          capture_data := false }) :=
  C10_set_data_size_nonatomic (newStream 1) 16 (by decide)

end AudioHook
